import Mathlib

/-!
Shallow embedding of the `mzpeaks` coordinate / peak data model
(`src/coordinate.rs`, `src/peak.rs`).

IEEE-754 `f64` values are modelled by the idealised type `F64`: a finite
value carries an exact rational (decimal-to-binary rounding is not
modelled; every constant appearing in the claims is exactly
representable), and the special values `inf`, `negInf` and `nan` obey
the IEEE comparison and arithmetic rules the code relies on.  `f32`
intensities are modelled with the same type since the code only ever
copies them, never computes with them.
-/

namespace Mzpeaks

/-- Idealised model of an IEEE-754 double: a finite rational or one of
the special values. -/
inductive F64 where
  | finite (q : ℚ)
  | inf
  | negInf
  | nan
deriving DecidableEq, Repr

/-- IEEE `<=` on doubles: any comparison with a NaN is false. -/
def F64.le : F64 → F64 → Bool
  | .nan, _ => false
  | _, .nan => false
  | .negInf, _ => true
  | _, .negInf => false
  | _, .inf => true
  | .inf, _ => false
  | .finite a, .finite b => decide (a ≤ b)

/-- IEEE `<` on doubles: any comparison with a NaN is false. -/
def F64.lt : F64 → F64 → Bool
  | .nan, _ => false
  | _, .nan => false
  | .negInf, .negInf => false
  | .negInf, _ => true
  | _, .negInf => false
  | .inf, _ => false
  | _, .inf => true
  | .finite a, .finite b => decide (a < b)

/-- IEEE `>=` on doubles, as used by `CoordinateRange::overlaps`. -/
def F64.ge (a b : F64) : Bool := F64.le b a

/-- IEEE addition (idealised: finite + finite never overflows). -/
def F64.add : F64 → F64 → F64
  | .nan, _ => .nan
  | _, .nan => .nan
  | .inf, .negInf => .nan
  | .negInf, .inf => .nan
  | .inf, _ => .inf
  | _, .inf => .inf
  | .negInf, _ => .negInf
  | _, .negInf => .negInf
  | .finite a, .finite b => .finite (a + b)

/-- IEEE multiplication (idealised: finite × finite never overflows). -/
def F64.mul : F64 → F64 → F64
  | .nan, _ => .nan
  | _, .nan => .nan
  | .finite a, .finite b => .finite (a * b)
  | .inf, .finite b => if b = 0 then .nan else if 0 < b then .inf else .negInf
  | .finite a, .inf => if a = 0 then .nan else if 0 < a then .inf else .negInf
  | .negInf, .finite b => if b = 0 then .nan else if 0 < b then .negInf else .inf
  | .finite a, .negInf => if a = 0 then .nan else if 0 < a then .negInf else .inf
  | .inf, .inf => .inf
  | .inf, .negInf => .negInf
  | .negInf, .inf => .negInf
  | .negInf, .negInf => .inf

/-- IEEE division.  A zero divisor is treated as `+0.0`, the only zero
the embedded code can produce there (it arises from casting the integer
charge `0` to `f64`). -/
def F64.div : F64 → F64 → F64
  | .nan, _ => .nan
  | _, .nan => .nan
  | .finite a, .finite b =>
      if b = 0 then
        if a = 0 then .nan else if 0 < a then .inf else .negInf
      else .finite (a / b)
  | .inf, .finite b => if 0 ≤ b then .inf else .negInf
  | .negInf, .finite b => if 0 ≤ b then .negInf else .inf
  | .finite _, .inf => .finite 0
  | .finite _, .negInf => .finite 0
  | .inf, .inf => .nan
  | .inf, .negInf => .nan
  | .negInf, .inf => .nan
  | .negInf, .negInf => .nan

/-- A double is finite when it is neither infinite nor NaN. -/
def F64.isFinite : F64 → Bool
  | .finite _ => true
  | _ => false

/-- The Mass To Charge Ratio (m/z) coordinate system tag
(`coordinate.rs` line 14). -/
structure MZ where
deriving DecidableEq, Repr

/-- The Mass coordinate system tag (`coordinate.rs` line 26). -/
structure Mass where
deriving DecidableEq, Repr

/-- The type alias `pub type IndexType = u32` (`coordinate.rs` line
142).  No operation in the embedded code performs arithmetic on an
index, so overflow never matters and `Nat` is a faithful carrier. -/
abbrev IndexType := Nat

/-- The trait `CoordinateLike<T>` (`coordinate.rs` lines 76-80): the
entity has a coordinate value on coordinate system `C`. -/
class CoordinateLike (C : Type) (T : Type) where
  coordinate : T → F64

/-- The trait `IndexedCoordinate<T>` (`coordinate.rs` lines 145-148).
`set_index(&mut self, _)` is modelled in state-passing style as a
function returning the updated value. -/
class IndexedCoordinate (C : Type) (T : Type) extends CoordinateLike C T where
  get_index : T → IndexType
  set_index : T → IndexType → T

/-- The trait `IntensityMeasurement` (`peak.rs` lines 17-19). -/
class IntensityMeasurement (T : Type) where
  intensity : T → F64

/-- A shared borrow `&T`: in the embedding a borrowed view is a wrapper
holding the referent's value. -/
structure Ref (T : Type) where
  val : T
deriving DecidableEq, Repr

/-- `impl<T: CoordinateLike<C>, C> CoordinateLike<C> for &T`
(`coordinate.rs` lines 117-121): reads delegate to the referent. -/
instance {C T : Type} [CoordinateLike C T] : CoordinateLike C (Ref T) where
  coordinate r := CoordinateLike.coordinate (C := C) r.val

/-- `impl<T: IndexedCoordinate<C>, C> IndexedCoordinate<C> for &T`
(`coordinate.rs` lines 150-156): `get_index` delegates to the referent
and `set_index` has an empty body, a no-op that leaves the state
unchanged. -/
instance {C T : Type} [IndexedCoordinate C T] : IndexedCoordinate C (Ref T) where
  coordinate r := CoordinateLike.coordinate (C := C) r.val
  get_index r := IndexedCoordinate.get_index (C := C) r.val
  set_index r _ := r

/-- The struct `MZPoint` (`peak.rs` lines 143-146). -/
structure MZPoint where
  mz : F64
  intensity : F64
deriving DecidableEq, Repr

/-- The struct `CentroidPeak` (`peak.rs` lines 105-109). -/
structure CentroidPeak where
  mz : F64
  intensity : F64
  index : IndexType
deriving DecidableEq, Repr

/-- The struct `DeconvolutedPeak` (`peak.rs` lines 208-213). -/
structure DeconvolutedPeak where
  neutral_mass : F64
  intensity : F64
  charge : Int
  index : IndexType
deriving DecidableEq, Repr

/-- The literal `1.007276` from `DeconvolutedPeak::mz` (`peak.rs` line
226), as its exact decimal value. -/
def chargeCarrier : F64 := .finite ((1007276 : ℚ) / 1000000)

/-- The cast `i32 as f64`, exact for every 32-bit integer. -/
def intToF64 (z : Int) : F64 := .finite (z : ℚ)

/-- `DeconvolutedPeak::mz` (`peak.rs` lines 225-229):
`(self.neutral_mass + charge_carrier * charge) / charge` where
`charge = self.charge as f64`. -/
def DeconvolutedPeak.mz (p : DeconvolutedPeak) : F64 :=
  F64.div (F64.add p.neutral_mass (F64.mul chargeCarrier (intToF64 p.charge)))
    (intToF64 p.charge)

/-- `impl CoordinateLike<MZ> for MZPoint` (`peak.rs` lines 155-159):
returns the stored `mz` field. -/
instance : CoordinateLike MZ MZPoint where
  coordinate := MZPoint.mz

/-- `impl IntensityMeasurement for MZPoint` (`peak.rs` lines 161-166). -/
instance : IntensityMeasurement MZPoint where
  intensity := MZPoint.intensity

/-- `impl IndexedCoordinate<MZ> for MZPoint` (`peak.rs` lines 175-181):
`get_index` always returns 0 and `set_index` has an empty body. -/
instance : IndexedCoordinate MZ MZPoint where
  coordinate := MZPoint.mz
  get_index _ := 0
  set_index p _ := p

/-- `impl CoordinateLike<MZ> for DeconvolutedPeak` (`peak.rs` lines
244-248): returns `self.mz()`. -/
instance : CoordinateLike MZ DeconvolutedPeak where
  coordinate := DeconvolutedPeak.mz

/-- Modelled from the spec: the macro call
`implement_centroidlike_inner!(CentroidPeak, true, false)` (`peak.rs`
line 132) expands to code defined outside `src/`; per the spec a
centroid peak's mass-to-charge coordinate is its stored field, so
`CoordinateLike<MZ>` reads `mz`, `IntensityMeasurement` reads
`intensity`, and the indexed coordinate reads and writes `index`. -/
instance : IndexedCoordinate MZ CentroidPeak where
  coordinate := CentroidPeak.mz
  get_index := CentroidPeak.index
  set_index p i := { p with index := i }

/-- Modelled from the spec: intensity access for `CentroidPeak` is
generated by the same macro (`peak.rs` line 132) and reads the stored
`intensity` field. -/
instance : IntensityMeasurement CentroidPeak where
  intensity := CentroidPeak.intensity

/-- Modelled from the spec: the macro call
`implement_deconvoluted_centroidlike_inner!(DeconvolutedPeak, true,
false)` (`peak.rs` line 232) expands to code outside `src/`; per the
spec the deconvoluted peak's neutral-mass coordinate is the stored
field. -/
instance : CoordinateLike Mass DeconvolutedPeak where
  coordinate := DeconvolutedPeak.neutral_mass

/-- Modelled from the spec: `CoordinateLikeMut<Mass>` for
`DeconvolutedPeak` (generated by the macro at `peak.rs` line 232,
outside `src/`) exposes a mutable reference to the stored
`neutral_mass` field; writing a value through `coordinate_mut` is
modelled as replacing that field. -/
def DeconvolutedPeak.setNeutralMass (p : DeconvolutedPeak) (m : F64) : DeconvolutedPeak :=
  { p with neutral_mass := m }

/-- `impl From<MZPoint> for CentroidPeak` (`peak.rs` lines 183-191):
copies `mz` and `intensity`, assigns index 0. -/
def CentroidPeak.ofMZPoint (peak : MZPoint) : CentroidPeak :=
  { mz := peak.mz, intensity := peak.intensity, index := 0 }

/-- `impl From<CentroidPeak> for MZPoint` (`peak.rs` lines 193-202):
builds the point from `peak.coordinate()` and `peak.intensity()`, then
calls `inst.set_index(peak.index)` (a no-op for `MZPoint`). -/
def MZPoint.ofCentroidPeak (peak : CentroidPeak) : MZPoint :=
  let inst : MZPoint :=
    { mz := CoordinateLike.coordinate (C := MZ) peak
      intensity := IntensityMeasurement.intensity peak }
  IndexedCoordinate.set_index (C := MZ) inst peak.index

/-- Rust's `std::ops::Bound<f64>` (by value). -/
inductive Bound where
  | included (x : F64)
  | excluded (x : F64)
  | unbounded
deriving DecidableEq, Repr

/-- The struct `CoordinateRange<C>` (`coordinate.rs` lines 160-164):
optional start, optional end, phantom coordinate tag. -/
structure CoordinateRange (C : Type) where
  start : Option F64
  end_ : Option F64
deriving DecidableEq, Repr

/-- `RangeBounds::start_bound` for `CoordinateRange` (`coordinate.rs`
lines 284-290): a present start is an included bound, an absent one is
unbounded. -/
def CoordinateRange.startBound {C : Type} (r : CoordinateRange C) : Bound :=
  match r.start with
  | some s => .included s
  | none => .unbounded

/-- `RangeBounds::end_bound` for `CoordinateRange` (`coordinate.rs`
lines 292-298): a present end is an included bound, an absent one is
unbounded. -/
def CoordinateRange.endBound {C : Type} (r : CoordinateRange C) : Bound :=
  match r.end_ with
  | some e => .included e
  | none => .unbounded

/-- The default `RangeBounds::contains` of the Rust standard library,
evaluated at a start bound, an end bound and an item: the lower check is
skipped for an unbounded start and the upper check for an unbounded
end. -/
def boundsContain (sb eb : Bound) (x : F64) : Bool :=
  (match sb with
   | .included s => F64.le s x
   | .excluded s => F64.lt s x
   | .unbounded => true) &&
  (match eb with
   | .included e => F64.le x e
   | .excluded e => F64.lt x e
   | .unbounded => true)

/-- `CoordinateRange::contains_raw` (`coordinate.rs` lines 180-182):
defers to `RangeBounds::contains`. -/
def CoordinateRange.contains_raw {C : Type} (r : CoordinateRange C) (x : F64) : Bool :=
  boundsContain r.startBound r.endBound x

/-- `CoordinateRange::contains` (`coordinate.rs` lines 175-178):
extracts the entity's coordinate for tag `C` and tests membership. -/
def CoordinateRange.contains {C T : Type} [CoordinateLike C T]
    (r : CoordinateRange C) (point : T) : Bool :=
  r.contains_raw (CoordinateLike.coordinate (C := C) point)

/-- An argument to `CoordinateRange::overlaps`: an arbitrary
`RangeBounds<f64>` value, represented by its two bounds. -/
structure BoundPair where
  startB : Bound
  endB : Bound
deriving DecidableEq, Repr

/-- `CoordinateRange::overlaps` (`coordinate.rs` lines 184-198): the
argument's bounds are collapsed to their numeric values (unbounded
start to 0, unbounded end to +infinity, exclusive treated like
inclusive), then
`self.end.unwrap_or(INFINITY) >= interval_start &&
 interval_end >= self.start.unwrap_or(0.0)`. -/
def CoordinateRange.overlaps {C : Type} (r : CoordinateRange C) (interval : BoundPair) : Bool :=
  let interval_start :=
    match interval.startB with
    | .included x => x
    | .excluded x => x
    | .unbounded => .finite 0
  let interval_end :=
    match interval.endB with
    | .included y => y
    | .excluded y => y
    | .unbounded => .inf
  F64.ge (r.end_.getD .inf) interval_start &&
    F64.ge interval_end (r.start.getD (.finite 0))

/-- Rust's `s.contains(char)` over the characters of the string. -/
def strContains (s : String) (c : Char) : Bool := s.data.contains c

/-- The delimiter selection of `from_str` (`coordinate.rs` lines
236-244): a space if one occurs, else a colon, else a hyphen, else the
space fallback. -/
def chooseDelim (s : String) : Char :=
  if strContains s ' ' then ' '
  else if strContains s ':' then ':'
  else if strContains s '-' then '-'
  else ' '

/-- Rust's `str::split(char)`: the list of (possibly empty) segments
between occurrences of `c`; a string with no occurrence yields a single
segment, and the result is never empty. -/
def splitChar (c : Char) : List Char → List (List Char)
  | [] => [[]]
  | x :: xs =>
    if x = c then [] :: splitChar c xs
    else
      match splitChar c xs with
      | [] => [[x]]
      | t :: ts => (x :: t) :: ts

/-- Numeric value of a digit character. -/
def digitVal (c : Char) : Nat := c.toNat - 48

/-- Value of a digit string read in base 10. -/
def digitsToNat (l : List Char) : Nat :=
  l.foldl (fun acc c => acc * 10 + digitVal c) 0

/-- An optional leading sign: returns (is-negative, remainder). -/
def parseSign : List Char → Bool × List Char
  | '+' :: rest => (false, rest)
  | '-' :: rest => (true, rest)
  | l => (false, l)

/-- Case-insensitive comparison of a character list against a fixed
lowercase word. -/
def lowerIs (l : List Char) (w : List Char) : Bool :=
  l.map Char.toLower == w

/-- Exact rational value of the decimal literal `±ip.fp × 10^e`
(idealised: no rounding to the nearest double).  The arithmetic is
arranged over `ℤ` so that integer-valued literals evaluate by kernel
reduction. -/
def decimalValue (neg : Bool) (ip fp : List Char) (e : Int) : ℚ :=
  let n : Int :=
    (if neg then -1 else 1) * ((digitsToNat ip) * 10 ^ fp.length + digitsToNat fp)
  let k : Int := e - fp.length
  if 0 ≤ k then ((n * 10 ^ k.toNat : Int) : ℚ)
  else (n : ℚ) / ((10 ^ (-k).toNat : Int) : ℚ)

/-- Model of `str::parse::<f64>` from the Rust standard library, per its
documented grammar: an optional sign, then case-insensitive `inf`,
`infinity` or `nan`, or a decimal mantissa (digits with an optional
point, at least one digit) followed by an optional `e`/`E` exponent.
Returns `none` exactly when the grammar is not matched (Rust's
`ParseFloatError`); the value is the exact rational. -/
def parseF64 (l : List Char) : Option F64 :=
  let s := parseSign l
  let neg := s.1
  let rest := s.2
  if lowerIs rest ['i', 'n', 'f'] ||
      lowerIs rest ['i', 'n', 'f', 'i', 'n', 'i', 't', 'y'] then
    some (if neg then .negInf else .inf)
  else if lowerIs rest ['n', 'a', 'n'] then
    some .nan
  else
    let ip := rest.takeWhile Char.isDigit
    let rest1 := rest.dropWhile Char.isDigit
    let fpr :=
      match rest1 with
      | '.' :: r => (r.takeWhile Char.isDigit, r.dropWhile Char.isDigit)
      | _ => (([] : List Char), rest1)
    let fp := fpr.1
    let rest2 := fpr.2
    if ip.isEmpty && fp.isEmpty then none
    else
      match rest2 with
      | [] => some (.finite (decimalValue neg ip fp 0))
      | c :: r =>
        if c = 'e' || c = 'E' then
          let es := parseSign r
          let eneg := es.1
          let r2 := es.2
          let ed := r2.takeWhile Char.isDigit
          let r3 := r2.dropWhile Char.isDigit
          if ed.isEmpty || !r3.isEmpty then none
          else
            let e : Int :=
              if eneg then -(digitsToNat ed : Int) else (digitsToNat ed : Int)
            some (.finite (decimalValue neg ip fp e))
        else none

/-- Rust's `std::num::ParseFloatError`.  The embedded code only ever
parses non-empty tokens, for which the single possible error kind is
"invalid float literal". -/
inductive ParseFloatError where
  | invalid
deriving DecidableEq, Repr

/-- The enum `CoordinateRangeParseError` (`coordinate.rs` lines
211-215): which side failed, carrying the underlying float error. -/
inductive CoordinateRangeParseError where
  | malformedStart (e : ParseFloatError)
  | malformedEnd (e : ParseFloatError)
deriving DecidableEq, Repr

/-- The observable outcome of `from_str`: a panic (an `unwrap` of
`None`), an error return, or a successfully built range. -/
inductive ParseOutcome (C : Type) where
  | panic
  | err (e : CoordinateRangeParseError)
  | ok (r : CoordinateRange C)
deriving DecidableEq, Repr

/-- One token of `from_str` (`coordinate.rs` lines 246-253 and
255-262): an empty token is `None`, otherwise the token must parse as a
float or the error is propagated. -/
def parseOptToken (t : List Char) : Except ParseFloatError (Option F64) :=
  if t.isEmpty then .ok none
  else
    match parseF64 t with
    | some v => .ok (some v)
    | none => .error .invalid

/-- The token-consuming body of `from_str` (`coordinate.rs` lines
245-267): `tokens.next().unwrap()` for the start (panicking on an empty
iterator), early return on a malformed start, `tokens.next().unwrap()`
for the end (panicking when the split produced a single token), early
return on a malformed end, else the built range.  Tokens beyond the
second are never requested. -/
def fromStrTokens {C : Type} : List (List Char) → ParseOutcome C
  | [] => .panic
  | start_s :: rest =>
    match parseOptToken start_s with
    | .error e => .err (.malformedStart e)
    | .ok start_t =>
      match rest with
      | [] => .panic
      | end_s :: _ =>
        match parseOptToken end_s with
        | .error e => .err (.malformedEnd e)
        | .ok end_t => .ok ⟨start_t, end_t⟩

/-- `impl FromStr for CoordinateRange<C>` (`coordinate.rs` lines
235-268): split the input on the chosen delimiter and consume the
tokens. -/
def fromStr (C : Type) (s : String) : ParseOutcome C :=
  fromStrTokens (splitChar (chooseDelim s) s.data)

/-- C1: the spec says a delimiter-free string is treated as a start-only
token with a no-op fallback delimiter, so a bare valid number returns
`Ok` with an unbounded end; the code instead panics: "10" contains none
of the three delimiters, the split yields a single token, the start
token parses as the number 10, and the second `tokens.next().unwrap()`
is an unwrap of `None`. -/
theorem c1_bare_number_panics :
    fromStr MZ "10" = ParseOutcome.panic ∧
    parseF64 "10".data = some (.finite 10) ∧
    (strContains "10" ' ' || strContains "10" ':' || strContains "10" '-') = false ∧
    fromStr MZ "3.5" = ParseOutcome.panic := by
  decide

/-- C2 counterexample: the range with absent start and end 10 contains
-5 even though `0 ≤ -5` is false, so `contains_raw` is not the test
`start_or_0 ≤ x ≤ end_or_+inf`, and a range with absent start does
contain negative values. -/
theorem c2_contains_counterexample :
    CoordinateRange.contains_raw (⟨none, some (.finite 10)⟩ : CoordinateRange MZ)
      (.finite (-5)) = true ∧
    F64.le (.finite 0) (.finite (-5)) = false := by
  decide

/-- C2 amended: `contains_raw` checks `start ≤ x` only when a start is
present and `x ≤ end` only when an end is present — an absent bound is
simply unchecked (unbounded in that direction), so a range with absent
start does contain negative values; containment against an entity
applies the same test to the entity's coordinate for the range's tag. -/
theorem c2_contains_amended {C T : Type} [CoordinateLike C T]
    (r : CoordinateRange C) (x : F64) (p : T) :
    r.contains_raw x =
      ((match r.start with
        | some s => F64.le s x
        | none => true) &&
       (match r.end_ with
        | some e => F64.le x e
        | none => true)) ∧
    r.contains p = r.contains_raw (CoordinateLike.coordinate (C := C) p) := by
  obtain ⟨s, e⟩ := r
  cases s <;> cases e <;> exact ⟨rfl, rfl⟩

/-- C2 witness: the amended characterisation evaluated at the bounded
range [1, 5], the value 3 and a point with coordinate 3. -/
theorem c2_contains_amended_witness :
    CoordinateRange.contains_raw (⟨some (.finite 1), some (.finite 5)⟩ : CoordinateRange MZ)
        (.finite 3) =
      (F64.le (.finite 1) (.finite 3) && F64.le (.finite 3) (.finite 5)) ∧
    CoordinateRange.contains (⟨some (.finite 1), some (.finite 5)⟩ : CoordinateRange MZ)
        (MZPoint.mk (.finite 3) (.finite 7)) =
      CoordinateRange.contains_raw (⟨some (.finite 1), some (.finite 5)⟩ : CoordinateRange MZ)
        (.finite 3) :=
  c2_contains_amended _ _ _

/-- C3 counterexample: "10:20:30" parses successfully to the range
[10, 20] — the text after the second colon is silently dropped — where
the claim says the end token fails the numeric parse. -/
theorem c3_split_counterexample :
    fromStr MZ "10:20:30" = .ok ⟨some (.finite 10), some (.finite 20)⟩ := by
  decide

/-- C3 amended: the split produces a token at every occurrence of the
chosen delimiter and only the first two tokens are consumed, so
remaining characters of the *other* delimiters stay inside the tokens
and reach the numeric parser ("10 20:30" fails its end parse), while
further occurrences of the *chosen* delimiter yield extra tokens that
are silently dropped ("10:20:30" parses as [10, 20]). -/
theorem c3_split_amended :
    (∀ (C : Type) (a b : List Char) (rest : List (List Char)),
        fromStrTokens (C := C) (a :: b :: rest) = fromStrTokens (C := C) [a, b]) ∧
    fromStr MZ "10 20:30" = .err (.malformedEnd .invalid) ∧
    fromStr MZ "10:20:30" = .ok ⟨some (.finite 10), some (.finite 20)⟩ := by
  refine ⟨?_, by decide, by decide⟩
  intro C a b rest
  cases h : parseOptToken a <;> simp only [fromStrTokens, h]

/-- C3 witness: a third token is ignored on a concrete token list. -/
theorem c3_split_amended_witness :
    fromStrTokens (C := MZ) [['1'], ['2'], ['3']] =
      fromStrTokens (C := MZ) [['1'], ['2']] :=
  c3_split_amended.1 MZ ['1'] ['2'] [['3']]

/-- C4: the m/z of a deconvoluted peak — both the inherent method and
the `CoordinateLike<MZ>` coordinate — is
`(neutral_mass + 1.007276 × charge) / charge` recomputed from the
current fields on every read, so after writing a new neutral mass
through the mutable accessor the next read uses the new value (and the
write leaves charge, intensity and index unchanged). -/
theorem c4_derived_mz (p : DeconvolutedPeak) (m : F64) :
    CoordinateLike.coordinate (C := MZ) p = p.mz ∧
    p.mz = F64.div (F64.add p.neutral_mass (F64.mul chargeCarrier (intToF64 p.charge)))
      (intToF64 p.charge) ∧
    (p.setNeutralMass m).mz =
      F64.div (F64.add m (F64.mul chargeCarrier (intToF64 p.charge)))
        (intToF64 p.charge) ∧
    (p.setNeutralMass m).neutral_mass = m ∧
    (p.setNeutralMass m).charge = p.charge ∧
    (p.setNeutralMass m).intensity = p.intensity ∧
    (p.setNeutralMass m).index = p.index :=
  ⟨rfl, rfl, rfl, rfl, rfl, rfl, rfl⟩

/-- C4 witness: after writing neutral mass 50 into a peak of charge 2,
the next m/z read is computed from 50. -/
theorem c4_derived_mz_witness :
    ((DeconvolutedPeak.mk (.finite 100) (.finite 1) 2 0).setNeutralMass (.finite 50)).mz =
      F64.div (F64.add (.finite 50) (F64.mul chargeCarrier (intToF64 2))) (intToF64 2) :=
  (c4_derived_mz (DeconvolutedPeak.mk (.finite 100) (.finite 1) 2 0) (.finite 50)).2.2.1

/-- C5: `overlaps` collapses the argument's bounds to numeric values
(inclusive and exclusive alike, unbounded start to 0, unbounded end to
+infinity) and returns exactly
`self.end_or_+inf >= arg_start && arg_end >= self.start_or_0`; in
particular [0,10] and [10,20] overlap while [0,9] and [10,20] do not. -/
theorem c5_overlaps {C : Type} (r : CoordinateRange C) (i : BoundPair) :
    (r.overlaps i = true ↔
      (F64.ge (r.end_.getD .inf)
          (match i.startB with
           | .included x => x
           | .excluded x => x
           | .unbounded => .finite 0) = true ∧
       F64.ge (match i.endB with
           | .included y => y
           | .excluded y => y
           | .unbounded => .inf)
          (r.start.getD (.finite 0)) = true)) ∧
    CoordinateRange.overlaps (⟨some (.finite 0), some (.finite 10)⟩ : CoordinateRange MZ)
      ⟨.included (.finite 10), .included (.finite 20)⟩ = true ∧
    CoordinateRange.overlaps (⟨some (.finite 0), some (.finite 9)⟩ : CoordinateRange MZ)
      ⟨.included (.finite 10), .included (.finite 20)⟩ = false := by
  refine ⟨?_, by decide, by decide⟩
  simp [CoordinateRange.overlaps, Bool.and_eq_true]

/-- C5 witness: the overlap characterisation evaluated at the range
[0, 10] against the included bound pair [10, 20]. -/
theorem c5_overlaps_witness :
    CoordinateRange.overlaps (⟨some (.finite 0), some (.finite 10)⟩ : CoordinateRange MZ)
        ⟨.included (.finite 10), .included (.finite 20)⟩ = true ↔
      (F64.ge ((some (F64.finite 10)).getD .inf) (.finite 10) = true ∧
       F64.ge (.finite 20) ((some (F64.finite 0)).getD (.finite 0)) = true) :=
  (c5_overlaps (⟨some (.finite 0), some (.finite 10)⟩ : CoordinateRange MZ)
    ⟨.included (.finite 10), .included (.finite 20)⟩).1

/-- C6: converting a centroid peak to a bare m/z point and back
preserves m/z and intensity exactly (the values are copied, never
recomputed) and resets the index to zero: the down-conversion drops the
index (its `set_index` on `MZPoint` is a no-op) and the up-conversion
assigns zero. -/
theorem c6_roundtrip (p : CentroidPeak) :
    (CentroidPeak.ofMZPoint (MZPoint.ofCentroidPeak p)).mz = p.mz ∧
    (CentroidPeak.ofMZPoint (MZPoint.ofCentroidPeak p)).intensity = p.intensity ∧
    (CentroidPeak.ofMZPoint (MZPoint.ofCentroidPeak p)).index = 0 ∧
    (MZPoint.ofCentroidPeak p).mz = p.mz ∧
    (MZPoint.ofCentroidPeak p).intensity = p.intensity :=
  ⟨rfl, rfl, rfl, rfl, rfl⟩

/-- C6 witness: the round trip on a peak with the non-zero index 19
keeps m/z and intensity and zeroes the index. -/
theorem c6_roundtrip_witness :
    (CentroidPeak.ofMZPoint (MZPoint.ofCentroidPeak
        (CentroidPeak.mk (.finite 204) (.finite 5000) 19))).mz = .finite 204 ∧
    (CentroidPeak.ofMZPoint (MZPoint.ofCentroidPeak
        (CentroidPeak.mk (.finite 204) (.finite 5000) 19))).intensity = .finite 5000 ∧
    (CentroidPeak.ofMZPoint (MZPoint.ofCentroidPeak
        (CentroidPeak.mk (.finite 204) (.finite 5000) 19))).index = 0 :=
  ⟨(c6_roundtrip (CentroidPeak.mk (.finite 204) (.finite 5000) 19)).1,
   (c6_roundtrip (CentroidPeak.mk (.finite 204) (.finite 5000) 19)).2.1,
   (c6_roundtrip (CentroidPeak.mk (.finite 204) (.finite 5000) 19)).2.2.1⟩

/-- C7: "10:20", "10-20" and "10 20" all parse to the bounded range
[10, 20]; ":20" parses to an unbounded start with end 20; "10:" parses
to start 10 with an unbounded end; and the delimiter is chosen in fixed
priority order: space, then colon, then hyphen. -/
theorem c7_parse_examples :
    fromStr MZ "10:20" = .ok ⟨some (.finite 10), some (.finite 20)⟩ ∧
    fromStr MZ "10-20" = .ok ⟨some (.finite 10), some (.finite 20)⟩ ∧
    fromStr MZ "10 20" = .ok ⟨some (.finite 10), some (.finite 20)⟩ ∧
    fromStr MZ ":20" = .ok ⟨none, some (.finite 20)⟩ ∧
    fromStr MZ "10:" = .ok ⟨some (.finite 10), none⟩ ∧
    (∀ s : String, strContains s ' ' = true → chooseDelim s = ' ') ∧
    (∀ s : String, strContains s ' ' = false → strContains s ':' = true →
      chooseDelim s = ':') ∧
    (∀ s : String, strContains s ' ' = false → strContains s ':' = false →
      strContains s '-' = true → chooseDelim s = '-') := by
  refine ⟨by decide, by decide, by decide, by decide, by decide, ?_, ?_, ?_⟩
  · intro s h
    simp [chooseDelim, h]
  · intro s h1 h2
    simp [chooseDelim, h1, h2]
  · intro s h1 h2 h3
    simp [chooseDelim, h1, h2, h3]

/-- C7 witness: the delimiter priority clauses evaluated on concrete
strings containing a space, only a colon, and only a hyphen. -/
theorem c7_parse_examples_witness :
    chooseDelim "1 2" = ' ' ∧ chooseDelim "1:2" = ':' ∧ chooseDelim "1-2" = '-' :=
  ⟨c7_parse_examples.2.2.2.2.2.1 "1 2" (by decide),
   c7_parse_examples.2.2.2.2.2.2.1 "1:2" (by decide) (by decide),
   c7_parse_examples.2.2.2.2.2.2.2 "1-2" (by decide) (by decide) (by decide)⟩

/-- C8 counterexample: "inf" is a non-empty token that does not denote a
finite number, yet "inf:20" parses successfully to an infinite start
instead of failing. -/
theorem c8_token_counterexample :
    fromStr MZ "inf:20" = .ok ⟨some .inf, some (.finite 20)⟩ ∧
    F64.isFinite .inf = false ∧
    "inf".data.isEmpty = false := by
  decide

/-- C8 amended: given a start token and an end token, an empty token is
unbounded on its side; a non-empty token either parses as a number —
possibly non-finite, since the float grammar also accepts inf, infinity
and nan — or the whole parse fails naming the malformed side and
carrying the float error, the start side being checked first; for a
two-token split no other outcome exists. -/
theorem c8_token_amended (C : Type) (a b : List Char) :
    fromStrTokens (C := C) [a, b] =
      (if a.isEmpty then
         (if b.isEmpty then .ok ⟨none, none⟩
          else
            match parseF64 b with
            | some v => .ok ⟨none, some v⟩
            | none => .err (.malformedEnd .invalid))
       else
         match parseF64 a with
         | none => .err (.malformedStart .invalid)
         | some u =>
           if b.isEmpty then .ok ⟨some u, none⟩
           else
             match parseF64 b with
             | some v => .ok ⟨some u, some v⟩
             | none => .err (.malformedEnd .invalid)) := by
  by_cases ha : a.isEmpty <;> by_cases hb : b.isEmpty <;>
    simp only [fromStrTokens, parseOptToken, ha, hb, if_true, if_false] <;>
    cases parseF64 a <;> cases parseF64 b <;> simp

/-- C8 witness: the two-token characterisation evaluated at the start
token "10" and the malformed end token "x". -/
theorem c8_token_amended_witness :
    fromStrTokens (C := MZ) [['1', '0'], ['x']] =
      .err (.malformedEnd .invalid) :=
  (c8_token_amended MZ ['1', '0'] ['x']).trans (by decide)

/-- C9: for any indexed entity, a borrowed view's `get_index` returns
the referent's index, and `set_index` through the borrowed view returns
normally while leaving the view (and hence the referent) completely
unchanged. -/
theorem c9_borrowed_view {C T : Type} [IndexedCoordinate C T]
    (x : Ref T) (i : IndexType) :
    IndexedCoordinate.get_index (C := C) x = IndexedCoordinate.get_index (C := C) x.val ∧
    IndexedCoordinate.set_index (C := C) x i = x :=
  ⟨rfl, rfl⟩

/-- C9 witness: the borrowed-view laws evaluated on a borrowed
`MZPoint`. -/
theorem c9_borrowed_view_witness :
    IndexedCoordinate.get_index (C := MZ) (Ref.mk (MZPoint.mk (.finite 5) (.finite 3))) =
      IndexedCoordinate.get_index (C := MZ) (MZPoint.mk (.finite 5) (.finite 3)) ∧
    IndexedCoordinate.set_index (C := MZ) (Ref.mk (MZPoint.mk (.finite 5) (.finite 3))) 7 =
      Ref.mk (MZPoint.mk (.finite 5) (.finite 3)) :=
  c9_borrowed_view (Ref.mk (MZPoint.mk (.finite 5) (.finite 3))) 7

/-- C10: for any deconvoluted peak whose charge is zero, reading the
derived m/z returns normally and the value is non-finite — ±infinity or
NaN from the division by zero — never a reported error. -/
theorem c10_zero_charge (p : DeconvolutedPeak) (h : p.charge = 0) :
    p.mz.isFinite = false := by
  have h0 : intToF64 p.charge = .finite 0 := by simp [intToF64, h]
  unfold DeconvolutedPeak.mz
  rw [h0]
  cases p.neutral_mass <;>
    simp only [chargeCarrier, F64.add, F64.mul, F64.div, F64.isFinite] <;>
    first
      | rfl
      | (split_ifs <;> rfl)

/-- C10 witness: the peak with neutral mass 100 and charge 0 has a
non-finite derived m/z. -/
theorem c10_zero_charge_witness :
    (DeconvolutedPeak.mk (.finite 100) (.finite 1) 0 0).charge = 0 ∧
    (DeconvolutedPeak.mk (.finite 100) (.finite 1) 0 0).mz.isFinite = false :=
  ⟨rfl, c10_zero_charge (DeconvolutedPeak.mk (.finite 100) (.finite 1) 0 0) rfl⟩

end Mzpeaks
